import Mathlib

/-!
Shallow embedding of `src/Pumpfunbot.py` (class `PumpFunMonitor`).

The Python program is a polling bot: `get_new_tokens` fetches a JSON feed,
`format_token_message` renders one token record into a message string, and
`monitor_new_tokens` runs the dedup-and-notify loop over the fetched records.

Modelling conventions:
* Python runtime values are modelled by `PyVal` (JSON-shaped dynamic values).
  Numbers are modelled by exact decimal values `Dec` (an integer mantissa
  `m` scaled by `10 ^ e`), the shape in which they arrive in the JSON feed.
  CPython stores them as binary doubles and rounds format ties half-even on
  the double; the model rounds the exact decimal half-away-from-zero.  The
  two agree except on decimal ties that are not binary-representable, and no
  claim exercises a rounding tie.
* Fallible Python expressions are modelled in `Except String α`; a `.error`
  is a raised exception, the string being the exception text (modelled, not
  byte-identical to CPython's messages).
* `datetime.now()` is modelled by threading the formatted timestamp string
  `now` as an explicit argument.
* I/O (the HTTP GET / POST themselves) is modelled by its observable data:
  the fetch outcome is a `FetchOutcome` input, and a call of
  `send_telegram_message` (which swallows all errors) is recorded by
  appending the message to the list of sent messages.
-/

namespace Pumpfunbot

/-- An exact decimal number `m / 10 ^ e`: the model of a Python number. -/
structure Dec where
  m : ℤ
  e : Nat
deriving DecidableEq

/-- Numeric equality of decimals (cross-multiplied). -/
def Dec.numEq (a b : Dec) : Bool :=
  a.m * (10 : ℤ) ^ b.e == b.m * (10 : ℤ) ^ a.e

/-- A decimal with value zero. -/
def Dec.isZero (a : Dec) : Bool :=
  a.m == 0

/-- Dynamic (JSON-shaped) Python values as used by the bot. -/
inductive PyVal where
  | none
  | bool (b : Bool)
  | num (x : Dec)
  | str (s : String)
  | list (xs : List PyVal)
  | dict (kvs : List (String × PyVal))

/-- Python truthiness (`if x:`). -/
def truthy : PyVal → Bool
  | .none => false
  | .bool b => b
  | .num x => !x.isZero
  | .str s => decide (s ≠ "")
  | .list xs => !xs.isEmpty
  | .dict kvs => !kvs.isEmpty

/-- Association-list lookup with default: the value part of `dict.get`.
Python dict keys are unique, so first-match lookup is faithful. -/
def lookupD (kvs : List (String × PyVal)) (k : String) (d : PyVal) : PyVal :=
  match kvs.find? (fun kv => kv.1 == k) with
  | some kv => kv.2
  | Option.none => d

/-- Python `x.get(k, d)`: succeeds on dicts, raises `AttributeError`
(modelled as `.error`) on every other value. -/
def pyGet (x : PyVal) (k : String) (d : PyVal) : Except String PyVal :=
  match x with
  | .dict kvs => .ok (lookupD kvs k d)
  | _ => .error "AttributeError: object has no attribute get"

/-- Python `==` on hashable (scalar) values, including the numeric tower
(`True == 1`).  Containers are compared as unequal here; the monitor model
only ever compares values that passed the hashability guard, so the
container branch is unreachable there. -/
def pyEqScalar : PyVal → PyVal → Bool
  | .none, .none => true
  | .bool a, .bool b => a == b
  | .num a, .num b => a.numEq b
  | .str a, .str b => a == b
  | .bool a, .num b => Dec.numEq ⟨if a then 1 else 0, 0⟩ b
  | .num a, .bool b => a.numEq ⟨if b then 1 else 0, 0⟩
  | _, _ => false

/-- Membership in the seen-set (Python `x in s` for a set of scalars). -/
def pyMem (v : PyVal) (l : List PyVal) : Bool :=
  l.any (pyEqScalar v)

/-- Whether a value is hashable (usable with `in` / `set.add`). -/
def pyHashable : PyVal → Bool
  | .list _ => false
  | .dict _ => false
  | _ => true

/-- Whether a value is a dict (a mapping). -/
def isDict : PyVal → Bool
  | .dict _ => true
  | _ => false

/-- Python `str(x)` as interpolated by an f-string.  Strings are rendered
verbatim; scalar constants follow CPython.  The rendering of numbers and
containers is simplified (CPython float repr and container repr are not
reproduced); no claim below renders a number or container through `str`. -/
def pyStr : PyVal → String
  | .str s => s
  | .bool b => if b then "True" else "False"
  | .none => "None"
  | .num x => if x.e = 0 then toString x.m else toString x.m ++ "e-" ++ toString x.e
  | .list _ => "<list>"
  | .dict _ => "<dict>"

/-- Python iteration `for x in v`: lists yield their elements, strings
their one-character substrings, dicts their keys; other values raise
`TypeError`. -/
def pyIter : PyVal → Except String (List PyVal)
  | .list xs => .ok xs
  | .str s => .ok (s.data.map (fun c => .str (String.mk [c])))
  | .dict kvs => .ok (kvs.map (fun kv => .str kv.1))
  | _ => .error "TypeError: object is not iterable"

/-- Python slicing `v[:n]`: defined for sequences, raises `TypeError`
otherwise. -/
def pySlice (n : Nat) : PyVal → Except String PyVal
  | .str s => .ok (.str (String.mk (s.data.take n)))
  | .list xs => .ok (.list (xs.take n))
  | _ => .error "TypeError: object is not subscriptable"

/-- Python `len(v)`. -/
def pyLen : PyVal → Except String Nat
  | .str s => .ok s.length
  | .list xs => .ok xs.length
  | .dict kvs => .ok kvs.length
  | _ => .error "TypeError: object has no len"

/-! ### Decimal rendering (Python fixed-point format specs `,.2f` and `.8f`) -/

/-- Decimal digits of a natural number, least significant first; the first
argument is structural fuel (any fuel at least the number itself yields all
digits), keeping the definition kernel-reducible. -/
def natDigitsRevAux : Nat → Nat → List Char
  | 0, _ => []
  | _ + 1, 0 => []
  | fuel + 1, n + 1 => Nat.digitChar ((n + 1) % 10) :: natDigitsRevAux fuel ((n + 1) / 10)

/-- Decimal digits of a natural number, least significant first
(`0` renders as `"0"`). -/
def natDigitsRev (n : Nat) : List Char :=
  match n with
  | 0 => ['0']
  | n + 1 => natDigitsRevAux (n + 1) (n + 1)

/-- Plain decimal rendering of a natural number (characters in order). -/
def natDecChars (n : Nat) : List Char :=
  (natDigitsRev n).reverse

/-- Take exactly `k` characters, padding with `'0'` (used on a
least-significant-first digit list, so padding supplies leading zeros). -/
def padTakeD (k : Nat) (l : List Char) : List Char :=
  match k, l with
  | 0, _ => []
  | k + 1, [] => List.replicate (k + 1) '0'
  | k + 1, c :: cs => c :: padTakeD k cs

/-- The `k` fractional digits of `n` (`n < 10 ^ k`), zero padded. -/
def fracChars (k n : Nat) : List Char :=
  (padTakeD k (natDigitsRev n)).reverse

/-- Group digit lists (most significant first inside each group, groups
least significant first) with comma separators, as `joinComma` below. -/
def chunk3 : List Char → List (List Char)
  | [] => []
  | a :: b :: c :: rest => [a, b, c] :: chunk3 rest
  | l => [l]

/-- Join character groups with comma separators. -/
def joinComma : List (List Char) → List Char
  | [] => []
  | [g] => g
  | g :: gs => g ++ ',' :: joinComma gs

/-- Thousands-grouped decimal rendering of a natural number
(Python `,` format flag). -/
def commaChars (n : Nat) : List Char :=
  (joinComma (chunk3 (natDigitsRev n))).reverse

/-- `|x| * 10 ^ k`, rounded to the nearest integer (ties away from zero).
CPython rounds the binary double half-even; the two agree except on decimal
ties that are not binary-representable. -/
def decScaledAbs (k : Nat) (x : Dec) : Nat :=
  if x.e ≤ k then x.m.natAbs * 10 ^ (k - x.e)
  else (2 * x.m.natAbs + 10 ^ (x.e - k)) / (2 * 10 ^ (x.e - k))

/-- Python fixed-point formatting of a number: `format(x, ',.kf')` when
`grouped`, `format(x, '.kf')` otherwise. -/
def pyFixedChars (grouped : Bool) (k : Nat) (x : Dec) : List Char :=
  (if x.m < 0 then ['-'] else []) ++
    ((match grouped with
      | true => commaChars (decScaledAbs k x / 10 ^ k)
      | false => natDecChars (decScaledAbs k x / 10 ^ k)) ++
      (if k = 0 then [] else '.' :: fracChars k (decScaledAbs k x % 10 ^ k)))

/-- String form of `pyFixedChars`. -/
def pyFixed (grouped : Bool) (k : Nat) (x : Dec) : String :=
  String.mk (pyFixedChars grouped k x)

/-! ### Python `float()` on strings -/

/-- Value of a list of decimal digit characters, most significant first. -/
def digitsToNat (cs : List Char) : Nat :=
  cs.foldl (fun a c => a * 10 + (c.toNat - 48)) 0

/-- Strip one leading sign character. -/
def parseSign : List Char → Bool × List Char
  | '-' :: cs => (true, cs)
  | '+' :: cs => (false, cs)
  | cs => (false, cs)

/-- Python `float(s)` on a string: optional surrounding spaces, optional
sign, digits with optional fraction part, optional exponent.  The `inf` and
`nan` forms, digit underscores, and non-space whitespace are not modelled
(no claim exercises them). -/
def parseFloatDec (s : String) : Option Dec :=
  let cs := ((s.data.dropWhile (fun c => c == ' ')).reverse.dropWhile
    (fun c => c == ' ')).reverse
  let sr := parseSign cs
  let ip := sr.2.takeWhile Char.isDigit
  let r1 := sr.2.dropWhile Char.isDigit
  let fr :=
    match r1 with
    | '.' :: t => (t.takeWhile Char.isDigit, t.dropWhile Char.isDigit)
    | _ => (([] : List Char), r1)
  if ip.isEmpty && fr.1.isEmpty then Option.none
  else
    let mant : ℤ := Int.ofNat (digitsToNat (ip ++ fr.1))
    let mant := if sr.1 then -mant else mant
    match fr.2 with
    | [] => some ⟨mant, fr.1.length⟩
    | c :: t =>
      if c == 'e' || c == 'E' then
        let esr := parseSign t
        let ed := esr.2.takeWhile Char.isDigit
        let t2 := esr.2.dropWhile Char.isDigit
        if ed.isEmpty || !t2.isEmpty then Option.none
        else if esr.1 then some ⟨mant, fr.1.length + digitsToNat ed⟩
        else some ⟨mant * (10 : ℤ) ^ digitsToNat ed, fr.1.length⟩
      else Option.none

/-- Python `float(v)`. -/
def pyFloat : PyVal → Except String Dec
  | .num x => .ok x
  | .bool b => .ok ⟨if b then 1 else 0, 0⟩
  | .str s =>
    match parseFloatDec s with
    | some x => .ok x
    | Option.none => .error ("ValueError: could not convert string to float: " ++ s)
  | _ => .error "TypeError: float argument must be a string or a real number"

/-! ### `PumpFunMonitor.format_token_message` (source lines 81-139) -/

/-- The f-string fragment `f"{v:,.2f}"`: numbers (and bools, ints in
disguise) format; every other value raises. -/
def pyFormatCommaFixed2 : PyVal → Except String String
  | .num x => .ok (pyFixed true 2 x)
  | .bool b => .ok (pyFixed true 2 ⟨if b then 1 else 0, 0⟩)
  | .str _ => .error "ValueError: unknown format code f for object of type str"
  | _ => .error "TypeError: unsupported format string"

/-- Line 101: `f"${market_cap:,.2f}" if market_cap else "N/A"`. -/
def market_cap_formatted_of (market_cap : PyVal) : Except String String :=
  if truthy market_cap then do
    let s ← pyFormatCommaFixed2 market_cap
    pure ("$" ++ s)
  else pure "N/A"

/-- Line 102: `f"${float(price):.8f}" if price else "N/A"`. -/
def price_formatted_of (price : PyVal) : Except String String :=
  if truthy price then do
    let x ← pyFloat price
    pure ("$" ++ pyFixed false 8 x)
  else pure "N/A"

/-- Line 117: `{description[:200]}{'...' if len(description) > 200 else ''}`
(evaluated inside the message f-string). -/
def description_segment (description : PyVal) : Except String String := do
  let sliced ← pySlice 200 description
  let n ← pyLen description
  pure (pyStr sliced ++ (if 200 < n then "..." else ""))

/-- The message template of lines 105-133: the f-string body, the three
conditional social-link lines, and the timestamp line. -/
def renderMessage (name symbol mint creator price_formatted market_cap_formatted
    descSeg : String) (website twitter telegram : PyVal) (now : String) : String :=
  "\n🚀 <b>NEW TOKEN LISTED ON PUMP.FUN</b>\n\n💎 <b>Name:</b> " ++ name ++
  "\n🎯 <b>Symbol:</b> $" ++ symbol ++
  "\n🔑 <b>Contract:</b> <code>" ++ mint ++ "</code>\n👤 <b>Creator:</b> <code>" ++
  creator ++ "</code>\n\n💰 <b>Price:</b> " ++ price_formatted ++
  "\n📊 <b>Market Cap:</b> " ++ market_cap_formatted ++
  "\n\n📝 <b>Description:</b>\n" ++ descSeg ++
  "\n\n🔗 <b>Links:</b>\n• Pump.fun: https://pump.fun/" ++ mint ++
  "\n• DEXScreener: https://dexscreener.com/solana/" ++ mint ++
  "\n• Birdeye: https://birdeye.so/token/" ++ mint ++ "\n" ++
  (if truthy website then "• Website: " ++ pyStr website ++ "\n" else "") ++
  (if truthy twitter then "• Twitter: " ++ pyStr twitter ++ "\n" else "") ++
  (if truthy telegram then "• Telegram: " ++ pyStr telegram ++ "\n" else "") ++
  "\n⏰ <b>Detected at:</b> " ++ now

/-- The `try` body of `format_token_message`, in source evaluation order:
the ten `token.get` calls (lines 85-98), the two numeric renderings (lines
101-102), then the message f-string, whose only fallible part is the
description slice (line 117). -/
def fmtBody (token : PyVal) (now : String) : Except String String := do
  let name ← pyGet token "name" (.str "Unknown")
  let symbol ← pyGet token "symbol" (.str "N/A")
  let mint ← pyGet token "mint" (.str "N/A")
  let description ← pyGet token "description" (.str "No description available")
  let market_cap ← pyGet token "usd_market_cap" (.num ⟨0, 0⟩)
  let price ← pyGet token "price_usd" (.num ⟨0, 0⟩)
  let creator ← pyGet token "creator" (.str "Unknown")
  let website ← pyGet token "website" (.str "")
  let telegram ← pyGet token "telegram" (.str "")
  let twitter ← pyGet token "twitter" (.str "")
  let market_cap_formatted ← market_cap_formatted_of market_cap
  let price_formatted ← price_formatted_of price
  let descSeg ← description_segment description
  pure (renderMessage (pyStr name) (pyStr symbol) (pyStr mint) (pyStr creator)
    price_formatted market_cap_formatted descSeg website twitter telegram now)

/-- `format_token_message` with its `except` clause (lines 137-139): any
exception becomes the fallback string, which the caller still sends. -/
def format_token_message (token : PyVal) (now : String) : String :=
  match fmtBody token now with
  | .ok m => m
  | .error e => "Error formatting token data: " ++ e

/-! ### `PumpFunMonitor.get_new_tokens` (source lines 53-79) -/

/-- The observable outcome of the HTTP GET in `get_new_tokens`: either the
request itself raised (network error, timeout), or a response arrived with
a status code and a JSON-parse result (`.error` models a body on which
`response.json()` raises). -/
inductive FetchOutcome where
  | response (status : Nat) (json : Except String PyVal)
  | netErr (msg : String)

/-- The `try` body of `get_new_tokens` (lines 55-75): on status 200, parse
the body and return it if it is a list, else `data.get('coins', [])`
(raising `AttributeError` when `data` is not a dict); on any other status
return `[]`. -/
def getNewTokensTry : FetchOutcome → Except String PyVal
  | .netErr m => .error m
  | .response status json =>
    if status == 200 then do
      let data ← json
      match data with
      | .list xs => pure (.list xs)
      | _ => pyGet data "coins" (.list [])
    else pure (.list [])

/-- `get_new_tokens` with its `except` clause (lines 77-79): every raised
exception is swallowed and `[]` is returned.  The result is stated in
`Except` so that "no exception escapes" is visible: the function never
returns `.error`. -/
def get_new_tokens (o : FetchOutcome) : Except String PyVal :=
  match getNewTokensTry o with
  | .ok v => .ok v
  | .error _ => .ok (.list [])

/-- Whether a fetch outcome is one of the failure cases of the claim: a
non-200 status, a network error, or a malformed (unparseable) body. -/
def isFetchFailure : FetchOutcome → Bool
  | .netErr _ => true
  | .response _ (.error _) => true
  | .response status (.ok _) => status != 200

/-! ### `PumpFunMonitor.monitor_new_tokens` (source lines 141-173)

One loop iteration is modelled as a pure function of the state.  The seen
set `self.seen_tokens` is a list of (hashable) `PyVal`s with membership by
Python equality; each `send_telegram_message` call (which never raises) is
recorded by appending the message to the sent list. -/

/-- The `for token in tokens:` body (lines 153-162), processing the fetched
records in order from a given seen set.  Returns the final seen set, the
messages sent, and `some e` when an iteration raised exception `e`
(a non-dict record at `token.get`, or an unhashable identifier at the set
membership test), abandoning the remaining records. -/
def monitor_process_tokens (now : String) (seen : List PyVal) :
    List PyVal → List PyVal × List String × Option String
  | [] => (seen, [], Option.none)
  | t :: rest =>
    match pyGet t "mint" (.str "") with
    | .error e => (seen, [], some e)
    | .ok token_mint =>
      if truthy token_mint then
        if pyHashable token_mint then
          if pyMem token_mint seen then monitor_process_tokens now seen rest
          else
            match monitor_process_tokens now (seen ++ [token_mint]) rest with
            | (seen2, msgs, err) => (seen2, format_token_message t now :: msgs, err)
        else (seen, [], some "TypeError: unhashable type")
      else monitor_process_tokens now seen rest

/-- Result of one `while True:` iteration: the new seen set, the messages
sent, and the sleep taken at the end (30 s steady state, 60 s backoff when
the iteration body raised). -/
structure IterResult where
  seen : List PyVal
  sent : List String
  sleepSecs : Nat

/-- One iteration of the monitoring loop (lines 149-173), given the value
`tokens` that `get_new_tokens` returned: `if tokens:` iterate it and run
the per-record body; any exception is caught by the `except` clause at line
171 and turns the 30-second pause into the 60-second backoff. -/
def monitor_iteration (now : String) (seen : List PyVal) (tokens : PyVal) :
    IterResult :=
  if truthy tokens then
    match pyIter tokens with
    | .error _ => ⟨seen, [], 60⟩
    | .ok ts =>
      match monitor_process_tokens now seen ts with
      | (seen2, msgs, Option.none) => ⟨seen2, msgs, 30⟩
      | (seen2, msgs, some _) => ⟨seen2, msgs, 60⟩
  else ⟨seen, [], 30⟩

/-- The seen sets reachable by the monitor: it starts empty (line 18) and
is transformed by one loop iteration at a time, for arbitrary fetched
values and timestamps.  The loop never terminates on its own, so every
reachable state has a successor for every next fetch result. -/
inductive ReachableSeen : List PyVal → Prop where
  | init : ReachableSeen []
  | step (seen : List PyVal) (now : String) (tokens : PyVal) :
      ReachableSeen seen → ReachableSeen (monitor_iteration now seen tokens).seen

/-! ### Spec-side characterizations

These definitions follow the specification's words, to be compared with the
renderings the code produces: "market cap rendered as a thousands-grouped
currency string with 2 decimal places", "price rendered with 8 decimal
places". -/

/-- Checks a reversed integer part: digit groups of exactly three separated
by commas, the leading (last-checked) group of one to three digits. -/
def groupedRevOk : List Char → Bool
  | [] => false
  | [a] => a.isDigit
  | [a, b] => a.isDigit && b.isDigit
  | [a, b, c] => a.isDigit && b.isDigit && c.isDigit
  | a :: b :: c :: d :: rest =>
      d == ',' && a.isDigit && b.isDigit && c.isDigit && groupedRevOk rest

/-- Everything after the currency sign, grouped form: a thousands-grouped
integer part, a point, exactly `k` fractional digits. -/
def currencyTailG (k : Nat) (cs : List Char) : Bool :=
  groupedRevOk (cs.takeWhile (fun c => c.isDigit || c == ',')).reverse &&
    match cs.dropWhile (fun c => c.isDigit || c == ',') with
    | c :: fr => (c == '.') && (fr.length == k) && fr.all Char.isDigit
    | [] => false

/-- Everything after the currency sign, plain form: a nonempty run of
digits, a point, exactly `k` fractional digits. -/
def currencyTailP (k : Nat) (cs : List Char) : Bool :=
  !(cs.takeWhile Char.isDigit).isEmpty &&
    match cs.dropWhile Char.isDigit with
    | c :: fr => (c == '.') && (fr.length == k) && fr.all Char.isDigit
    | [] => false

/-- Checks everything after the currency sign: an integer part
(thousands-grouped when `grouped`, plain digits otherwise), a point, and
exactly `k` fractional digits. -/
def currencyTail (grouped : Bool) (k : Nat) (cs : List Char) : Bool :=
  match grouped with
  | true => currencyTailG k cs
  | false => currencyTailP k cs

/-- A currency string with `k` decimal places: `$`, an optional minus sign,
a (grouped when `grouped`) integer part, and `k` fractional digits. -/
def isCurrency (grouped : Bool) (k : Nat) (s : String) : Bool :=
  match s.data with
  | c :: cs =>
    c == '$' && currencyTail grouped k (if cs.head? == some '-' then cs.tail else cs)
  | [] => false

/-! ## Helper lemmas -/

theorem except_bind_ok (a : α) (f : α → Except ε β) :
    (Except.ok a >>= f) = f a := rfl

theorem except_bind_error (e : ε) (f : α → Except ε β) :
    ((Except.error e : Except ε α) >>= f) = .error e := rfl

theorem except_pure (a : α) : (pure a : Except ε α) = Except.ok a := rfl

theorem takeWhile_append_of_all (p : Char → Bool) (l r : List Char)
    (h : l.all p = true) :
    List.takeWhile p (l ++ r) = l ++ List.takeWhile p r := by
  induction l with
  | nil => rfl
  | cons c cs ih =>
    simp only [List.all_cons, Bool.and_eq_true] at h
    simp [List.takeWhile_cons, h.1, ih h.2]

theorem dropWhile_append_of_all (p : Char → Bool) (l r : List Char)
    (h : l.all p = true) :
    List.dropWhile p (l ++ r) = List.dropWhile p r := by
  induction l with
  | nil => rfl
  | cons c cs ih =>
    simp only [List.all_cons, Bool.and_eq_true] at h
    simp [List.dropWhile_cons, h.1, ih h.2]

theorem digitChar_isDigit : ∀ d : Nat, d < 10 → (Nat.digitChar d).isDigit = true := by
  decide

theorem natDigitsRevAux_digits :
    ∀ fuel n, (natDigitsRevAux fuel n).all Char.isDigit = true := by
  intro fuel
  induction fuel with
  | zero => intro n; rfl
  | succ fuel ih =>
    intro n
    match n with
    | 0 => rfl
    | n + 1 =>
      simp only [natDigitsRevAux, List.all_cons, Bool.and_eq_true]
      exact ⟨digitChar_isDigit _ (Nat.mod_lt _ (by norm_num)), ih _⟩

theorem natDigitsRev_digits (n : Nat) :
    (natDigitsRev n).all Char.isDigit = true := by
  match n with
  | 0 => rfl
  | n + 1 => exact natDigitsRevAux_digits (n + 1) (n + 1)

theorem natDigitsRev_ne_nil (n : Nat) : natDigitsRev n ≠ [] := by
  match n with
  | 0 => simp [natDigitsRev]
  | n + 1 => simp [natDigitsRev, natDigitsRevAux]

theorem padTakeD_length : ∀ (k : Nat) (l : List Char), (padTakeD k l).length = k := by
  intro k
  induction k with
  | zero => intro l; rfl
  | succ k ih =>
    intro l
    match l with
    | [] => simp [padTakeD]
    | c :: cs => simp [padTakeD, ih]

theorem padTakeD_all (p : Char → Bool) (h0 : p '0' = true) :
    ∀ (k : Nat) (l : List Char), l.all p = true → (padTakeD k l).all p = true := by
  intro k
  induction k with
  | zero => intro l _; rfl
  | succ k ih =>
    intro l hl
    match l with
    | [] => simp [padTakeD, List.all_replicate, h0]
    | c :: cs =>
      simp only [List.all_cons, Bool.and_eq_true] at hl
      simp [padTakeD, hl.1, ih cs hl.2]

theorem fracChars_length (k n : Nat) : (fracChars k n).length = k := by
  simp [fracChars, padTakeD_length]

theorem fracChars_digits (k n : Nat) : (fracChars k n).all Char.isDigit = true := by
  simp only [fracChars, List.all_reverse]
  exact padTakeD_all _ (by decide) _ _ (natDigitsRev_digits n)

theorem natDecChars_digits (n : Nat) : (natDecChars n).all Char.isDigit = true := by
  simp only [natDecChars, List.all_reverse]
  exact natDigitsRev_digits n

theorem natDecChars_ne_nil (n : Nat) : natDecChars n ≠ [] := by
  simp [natDecChars, natDigitsRev_ne_nil n]

theorem chunk3_ne_nil : ∀ l : List Char, l ≠ [] → chunk3 l ≠ [] := by
  intro l hl
  match l with
  | [a] => simp [chunk3]
  | [a, b] => simp [chunk3]
  | a :: b :: c :: rest => simp [chunk3]

theorem joinComma_chunk3_all (p : Char → Bool) (hc : p ',' = true) :
    ∀ l : List Char, l.all p = true → (joinComma (chunk3 l)).all p = true := by
  intro l
  induction l using chunk3.induct with
  | case1 => intro _; rfl
  | case2 a b c rest ih =>
    intro h
    simp only [List.all_cons, Bool.and_eq_true] at h
    have hrec := ih h.2.2.2
    cases hch : chunk3 rest with
    | nil => simp [chunk3, hch, joinComma, h.1, h.2.1, h.2.2.1]
    | cons g gs =>
      rw [hch] at hrec
      simp only [chunk3, hch, joinComma, List.all_append, List.all_cons,
        Bool.and_eq_true]
      refine ⟨⟨h.1, h.2.1, h.2.2.1, by trivial⟩, hc, ?_⟩
      simpa [joinComma] using hrec
  | case3 l h1 h2 =>
    intro h
    match l, h1, h2 with
    | [], h1, _ => exact absurd rfl h1
    | [a], _, _ => simpa [chunk3, joinComma] using h
    | [a, b], _, _ => simpa [chunk3, joinComma] using h
    | a :: b :: c :: rest, _, h2 => exact absurd rfl (h2 a b c rest)

theorem groupedRevOk_joinComma_chunk3 :
    ∀ l : List Char, l ≠ [] → l.all Char.isDigit = true →
      groupedRevOk (joinComma (chunk3 l)) = true := by
  intro l
  induction l using chunk3.induct with
  | case1 => intro h _; exact absurd rfl h
  | case2 a b c rest ih =>
    intro _ h
    simp only [List.all_cons, Bool.and_eq_true] at h
    cases rest with
    | nil => simp [chunk3, joinComma, groupedRevOk, h.1, h.2.1, h.2.2.1]
    | cons r rs =>
      have hne := chunk3_ne_nil (r :: rs) (by simp)
      have hrec := ih (by simp) h.2.2.2
      cases hch : chunk3 (r :: rs) with
      | nil => exact absurd hch hne
      | cons g gs =>
        rw [hch] at hrec
        simp only [chunk3, hch, joinComma, List.cons_append, List.nil_append]
        simp [groupedRevOk, h.1, h.2.1, h.2.2.1]
        simpa [joinComma] using hrec
  | case3 l h1 h2 =>
    intro _ h
    match l, h1, h2 with
    | [], h1, _ => exact absurd rfl h1
    | [a], _, _ => simpa [chunk3, joinComma, groupedRevOk] using h
    | [a, b], _, _ =>
      simp only [List.all_cons, List.all_nil, Bool.and_eq_true] at h
      simp [chunk3, joinComma, groupedRevOk, h.1, h.2.1]
    | a :: b :: c :: rest, _, h2 => exact absurd rfl (h2 a b c rest)

theorem commaChars_reverse (n : Nat) :
    (commaChars n).reverse = joinComma (chunk3 (natDigitsRev n)) := by
  simp [commaChars]

theorem all_weaken {p q : Char → Bool} (h : ∀ c, p c = true → q c = true) :
    ∀ l : List Char, l.all p = true → l.all q = true := by
  intro l hl
  simp only [List.all_eq_true] at hl ⊢
  exact fun c hc => h c (hl c hc)

theorem commaChars_all_pred (n : Nat) :
    (commaChars n).all (fun c => c.isDigit || c == ',') = true := by
  simp only [commaChars, List.all_reverse]
  refine joinComma_chunk3_all _ (by decide) _ ?_
  exact all_weaken (fun c hc => by simp [hc]) _ (natDigitsRev_digits n)

theorem commaChars_groupedRevOk (n : Nat) :
    groupedRevOk (commaChars n).reverse = true := by
  rw [commaChars_reverse]
  exact groupedRevOk_joinComma_chunk3 _ (natDigitsRev_ne_nil n) (natDigitsRev_digits n)

theorem commaChars_ne_nil (n : Nat) : commaChars n ≠ [] := by
  intro h
  have hg := commaChars_groupedRevOk n
  rw [h] at hg
  simp [groupedRevOk] at hg

theorem isDigit_beq_dash (c : Char) (h : c.isDigit = true) : (c == '-') = false := by
  cases hbe : (c == '-') with
  | false => rfl
  | true =>
    have hc : c = '-' := by exact beq_iff_eq.mp hbe
    rw [hc] at h
    exact absurd h (by decide)

theorem isDigit_or_comma_beq_dash (c : Char)
    (h : (c.isDigit || c == ',') = true) : (c == '-') = false := by
  simp only [Bool.or_eq_true] at h
  cases h with
  | inl h => exact isDigit_beq_dash c h
  | inr h =>
    have hc : c = ',' := by exact beq_iff_eq.mp h
    rw [hc]
    decide

theorem takeWhile_cons_neg (p : Char → Bool) (c : Char) (l : List Char)
    (hp : p c = false) : List.takeWhile p (c :: l) = [] := by
  simp [List.takeWhile_cons, hp]

theorem dropWhile_cons_neg (p : Char → Bool) (c : Char) (l : List Char)
    (hp : p c = false) : List.dropWhile p (c :: l) = c :: l := by
  simp [List.dropWhile_cons, hp]

theorem currencyTailG_holds (k : Nat) (ip fp : Nat) :
    currencyTailG k (commaChars ip ++ '.' :: fracChars k fp) = true := by
  have hall := commaChars_all_pred ip
  unfold currencyTailG
  rw [takeWhile_append_of_all _ _ _ hall, dropWhile_append_of_all _ _ _ hall,
    takeWhile_cons_neg _ _ _ (by decide), dropWhile_cons_neg _ _ _ (by decide)]
  simp only [List.append_nil, Bool.and_eq_true, beq_self_eq_true, true_and]
  refine ⟨?_, ?_, ?_⟩
  · simpa using commaChars_groupedRevOk ip
  · simp [fracChars_length k fp]
  · exact fracChars_digits k fp

theorem currencyTailP_holds (k : Nat) (ip fp : Nat) :
    currencyTailP k (natDecChars ip ++ '.' :: fracChars k fp) = true := by
  have hall := natDecChars_digits ip
  unfold currencyTailP
  rw [takeWhile_append_of_all _ _ _ hall, dropWhile_append_of_all _ _ _ hall,
    takeWhile_cons_neg _ _ _ (by decide), dropWhile_cons_neg _ _ _ (by decide)]
  simp only [List.append_nil, Bool.and_eq_true, beq_self_eq_true, true_and]
  refine ⟨?_, ?_, ?_⟩
  · simp [natDecChars_ne_nil ip]
  · simp [fracChars_length k fp]
  · exact fracChars_digits k fp

theorem currencyTail_nil_false (grouped : Bool) (k : Nat) (frac : List Char) :
    currencyTail grouped k ([] ++ '.' :: frac) = false := by
  cases grouped with
  | true =>
    unfold currencyTail currencyTailG
    rw [List.nil_append, takeWhile_cons_neg _ _ _ (by decide),
      dropWhile_cons_neg _ _ _ (by decide)]
    simp [groupedRevOk]
  | false =>
    unfold currencyTail currencyTailP
    rw [List.nil_append, takeWhile_cons_neg _ _ _ (by decide)]
    simp

theorem isCurrency_shape (grouped : Bool) (k : Nat) (neg : Bool)
    (intC frac : List Char)
    (hhead : ∀ c cs, intC = c :: cs → (c == '-') = false)
    (h : currencyTail grouped k (intC ++ '.' :: frac) = true) :
    isCurrency grouped k
      ("$" ++ String.mk ((if neg then ['-'] else []) ++ (intC ++ '.' :: frac))) = true := by
  have hdata :
      ("$" ++ String.mk ((if neg then ['-'] else []) ++ (intC ++ '.' :: frac))).data
        = '$' :: ((if neg then ['-'] else []) ++ (intC ++ '.' :: frac)) := by
    simp [String.data_append]
  unfold isCurrency
  rw [hdata]
  cases neg with
  | true => simpa using h
  | false =>
    cases hic : intC with
    | nil =>
      rw [hic] at h
      rw [currencyTail_nil_false] at h
      exact absurd h (by simp)
    | cons c cs =>
      have hc := hhead c cs hic
      rw [hic] at h
      simpa [hc] using h

theorem isCurrency_pyFixed (grouped : Bool) (k : Nat) (hk : k ≠ 0) (x : Dec) :
    isCurrency grouped k ("$" ++ pyFixed grouped k x) = true := by
  unfold pyFixed pyFixedChars
  rw [if_neg hk]
  have hneg : (if x.m < 0 then ['-'] else [])
      = (if decide (x.m < 0) then ['-'] else []) := by
    by_cases hx : x.m < 0 <;> simp [hx]
  rw [hneg]
  cases grouped with
  | true =>
    exact isCurrency_shape true k (decide (x.m < 0))
      (commaChars (decScaledAbs k x / 10 ^ k)) (fracChars k (decScaledAbs k x % 10 ^ k))
      (fun c cs hcs => by
        have hall := commaChars_all_pred (decScaledAbs k x / 10 ^ k)
        rw [hcs] at hall
        simp only [List.all_cons, Bool.and_eq_true] at hall
        exact isDigit_or_comma_beq_dash c hall.1)
      (currencyTailG_holds k _ _)
  | false =>
    exact isCurrency_shape false k (decide (x.m < 0))
      (natDecChars (decScaledAbs k x / 10 ^ k)) (fracChars k (decScaledAbs k x % 10 ^ k))
      (fun c cs hcs => by
        have hall := natDecChars_digits (decScaledAbs k x / 10 ^ k)
        rw [hcs] at hall
        simp only [List.all_cons, Bool.and_eq_true] at hall
        exact isDigit_beq_dash c hall.1)
      (currencyTailP_holds k _ _)

theorem strMk_data (s : String) : String.mk s.data = s := rfl

theorem lookupD_of_find_none (kvs : List (String × PyVal)) (k : String) (d : PyVal)
    (h : kvs.find? (fun kv => kv.1 == k) = Option.none) : lookupD kvs k d = d := by
  unfold lookupD
  rw [h]

theorem fmtBody_dict_ok (kvs : List (String × PyVal)) (now : String)
    (mcf pf ds : String)
    (hmc : market_cap_formatted_of (lookupD kvs "usd_market_cap" (.num ⟨0, 0⟩)) = .ok mcf)
    (hpf : price_formatted_of (lookupD kvs "price_usd" (.num ⟨0, 0⟩)) = .ok pf)
    (hds : description_segment
      (lookupD kvs "description" (.str "No description available")) = .ok ds) :
    fmtBody (.dict kvs) now = .ok (renderMessage
      (pyStr (lookupD kvs "name" (.str "Unknown")))
      (pyStr (lookupD kvs "symbol" (.str "N/A")))
      (pyStr (lookupD kvs "mint" (.str "N/A")))
      (pyStr (lookupD kvs "creator" (.str "Unknown")))
      pf mcf ds
      (lookupD kvs "website" (.str ""))
      (lookupD kvs "twitter" (.str ""))
      (lookupD kvs "telegram" (.str ""))
      now) := by
  unfold fmtBody
  simp only [pyGet, except_bind_ok, hmc, hpf, hds, except_pure]

theorem format_token_message_ok (kvs : List (String × PyVal)) (now : String)
    (mcf pf ds : String)
    (hmc : market_cap_formatted_of (lookupD kvs "usd_market_cap" (.num ⟨0, 0⟩)) = .ok mcf)
    (hpf : price_formatted_of (lookupD kvs "price_usd" (.num ⟨0, 0⟩)) = .ok pf)
    (hds : description_segment
      (lookupD kvs "description" (.str "No description available")) = .ok ds) :
    format_token_message (.dict kvs) now = renderMessage
      (pyStr (lookupD kvs "name" (.str "Unknown")))
      (pyStr (lookupD kvs "symbol" (.str "N/A")))
      (pyStr (lookupD kvs "mint" (.str "N/A")))
      (pyStr (lookupD kvs "creator" (.str "Unknown")))
      pf mcf ds
      (lookupD kvs "website" (.str ""))
      (lookupD kvs "twitter" (.str ""))
      (lookupD kvs "telegram" (.str ""))
      now := by
  unfold format_token_message
  rw [fmtBody_dict_ok kvs now mcf pf ds hmc hpf hds]

theorem format_token_message_mc_error (kvs : List (String × PyVal)) (now e : String)
    (hmc : market_cap_formatted_of (lookupD kvs "usd_market_cap" (.num ⟨0, 0⟩))
      = .error e) :
    format_token_message (.dict kvs) now = "Error formatting token data: " ++ e := by
  unfold format_token_message fmtBody
  simp only [pyGet, except_bind_ok, hmc, except_bind_error]

theorem format_token_message_price_error (kvs : List (String × PyVal)) (now e : String)
    (mcf : String)
    (hmc : market_cap_formatted_of (lookupD kvs "usd_market_cap" (.num ⟨0, 0⟩)) = .ok mcf)
    (hpf : price_formatted_of (lookupD kvs "price_usd" (.num ⟨0, 0⟩)) = .error e) :
    format_token_message (.dict kvs) now = "Error formatting token data: " ++ e := by
  unfold format_token_message fmtBody
  simp only [pyGet, except_bind_ok, hmc, hpf, except_bind_error]

theorem processTokens_seen_mem (now : String) :
    ∀ (ts seen : List PyVal) (v : PyVal),
      v ∈ (monitor_process_tokens now seen ts).1 → v ∈ seen ∨ truthy v = true := by
  intro ts
  induction ts with
  | nil => intro seen v h; exact Or.inl h
  | cons t rest ih =>
    intro seen v h
    unfold monitor_process_tokens at h
    cases hg : pyGet t "mint" (.str "") with
    | error e =>
      rw [hg] at h
      exact Or.inl h
    | ok tm =>
      rw [hg] at h
      by_cases ht : truthy tm = true
      · by_cases hh : pyHashable tm = true
        · by_cases hm : pyMem tm seen = true
          · simp only [ht, hh, hm, if_true] at h
            exact ih seen v h
          · simp only [ht, hh, hm, if_true, Bool.false_eq_true, if_false] at h
            rcases hrec : monitor_process_tokens now (seen ++ [tm]) rest with ⟨s2, msgs, err⟩
            rw [hrec] at h
            simp only at h
            have hmem : v ∈ s2 := h
            have := ih (seen ++ [tm]) v (by rw [hrec]; exact hmem)
            rcases this with hin | htr
            · rcases List.mem_append.mp hin with hs | hl
              · exact Or.inl hs
              · have hv : v = tm := by simpa using hl
                rw [hv]
                exact Or.inr ht
            · exact Or.inr htr
        · simp only [ht, if_true, hh, Bool.false_eq_true, if_false] at h
          exact Or.inl h
      · simp only [ht, Bool.false_eq_true, if_false] at h
        exact ih seen v h

theorem reachable_no_empty_str :
    ∀ seen, ReachableSeen seen → PyVal.str "" ∉ seen := by
  intro seen h
  induction h with
  | init => simp
  | step seen now tokens hr ih =>
    intro hmem
    unfold monitor_iteration at hmem
    by_cases ht : truthy tokens = true
    · simp only [ht, if_true] at hmem
      cases hi : pyIter tokens with
      | error e =>
        rw [hi] at hmem
        exact ih hmem
      | ok ts =>
        rw [hi] at hmem
        simp only at hmem
        rcases hrec : monitor_process_tokens now seen ts with ⟨s2, msgs, err⟩
        rw [hrec] at hmem
        have hmem2 : PyVal.str "" ∈ s2 := by
          cases err <;> simpa using hmem
        have := processTokens_seen_mem now ts seen (PyVal.str "")
          (by rw [hrec]; exact hmem2)
        rcases this with hin | htr
        · exact ih hin
        · exact absurd htr (by decide)
    · simp only [ht, Bool.false_eq_true, if_false] at hmem
      exact ih hmem

theorem processTokens_no_error (now : String) :
    ∀ (ts seen : List PyVal),
      (∀ t ∈ ts, ∃ kvs, t = PyVal.dict kvs
        ∧ pyHashable (lookupD kvs "mint" (.str "")) = true) →
      (monitor_process_tokens now seen ts).2.2 = Option.none := by
  intro ts
  induction ts with
  | nil => intro seen _; rfl
  | cons t rest ih =>
    intro seen hts
    obtain ⟨kvs, hdict, hhash⟩ := hts t (by simp)
    subst hdict
    have hrest : ∀ t ∈ rest, ∃ kvs, t = PyVal.dict kvs
        ∧ pyHashable (lookupD kvs "mint" (.str "")) = true :=
      fun t ht => hts t (by simp [ht])
    unfold monitor_process_tokens
    simp only [pyGet]
    by_cases ht : truthy (lookupD kvs "mint" (.str "")) = true
    · by_cases hm : pyMem (lookupD kvs "mint" (.str "")) seen = true
      · simp only [ht, hhash, hm, if_true]
        exact ih seen hrest
      · simp only [ht, hhash, hm, if_true, Bool.false_eq_true, if_false]
        rcases hrec : monitor_process_tokens now
          (seen ++ [lookupD kvs "mint" (.str "")]) rest with ⟨s2, msgs, err⟩
        have := ih (seen ++ [lookupD kvs "mint" (.str "")]) hrest
        rw [hrec] at this
        simpa using this
    · simp only [ht, Bool.false_eq_true, if_false]
      exact ih seen hrest

theorem processTokens_append_error (now : String) (v : PyVal) (hv : isDict v = false) :
    ∀ (pre : List PyVal) (seen post : List PyVal),
      (∀ t ∈ pre, ∃ kvs, t = PyVal.dict kvs
        ∧ pyHashable (lookupD kvs "mint" (.str "")) = true) →
      monitor_process_tokens now seen (pre ++ v :: post)
        = ((monitor_process_tokens now seen pre).1,
           (monitor_process_tokens now seen pre).2.1,
           some "AttributeError: object has no attribute get") := by
  intro pre
  induction pre with
  | nil =>
    intro seen post _
    have hg : pyGet v "mint" (.str "")
        = .error "AttributeError: object has no attribute get" := by
      cases v <;> first | rfl | exact absurd hv (by simp [isDict])
    simp only [List.nil_append]
    unfold monitor_process_tokens
    rw [hg]
  | cons t pre ih =>
    intro seen post hts
    obtain ⟨kvs, hdict, hhash⟩ := hts t (by simp)
    subst hdict
    have hpre : ∀ t ∈ pre, ∃ kvs, t = PyVal.dict kvs
        ∧ pyHashable (lookupD kvs "mint" (.str "")) = true :=
      fun t ht => hts t (by simp [ht])
    simp only [List.cons_append]
    unfold monitor_process_tokens
    simp only [pyGet]
    by_cases ht : truthy (lookupD kvs "mint" (.str "")) = true
    · by_cases hm : pyMem (lookupD kvs "mint" (.str "")) seen = true
      · simp only [ht, hhash, hm, if_true]
        exact ih seen post hpre
      · simp only [ht, hhash, hm, if_true, Bool.false_eq_true, if_false]
        rw [ih (seen ++ [lookupD kvs "mint" (.str "")]) post hpre]
    · simp only [ht, Bool.false_eq_true, if_false]
      exact ih seen post hpre

/-! ## Claim theorems -/

/-- Claim C1: processing the feed response
`[{"mint": "A"}, {"mint": "B"}, {"mint": "A"}]` in one loop iteration from
an empty seen set sends exactly two messages — the one formatted for the
first `A` record, then the one for the `B` record — and a second iteration
over the same response, from the resulting seen set, sends none. -/
theorem C1_duplicate_mint_batch (now : String) :
    (monitor_iteration now [] (.list [.dict [("mint", PyVal.str "A")],
        .dict [("mint", PyVal.str "B")], .dict [("mint", PyVal.str "A")]])).sent
      = [format_token_message (.dict [("mint", PyVal.str "A")]) now,
         format_token_message (.dict [("mint", PyVal.str "B")]) now]
    ∧ (monitor_iteration now [] (.list [.dict [("mint", PyVal.str "A")],
        .dict [("mint", PyVal.str "B")], .dict [("mint", PyVal.str "A")]])).sent.length = 2
    ∧ (monitor_iteration now
        (monitor_iteration now [] (.list [.dict [("mint", PyVal.str "A")],
          .dict [("mint", PyVal.str "B")], .dict [("mint", PyVal.str "A")]])).seen
        (.list [.dict [("mint", PyVal.str "A")],
          .dict [("mint", PyVal.str "B")], .dict [("mint", PyVal.str "A")]])).sent = [] :=
  ⟨rfl, rfl, rfl⟩

/-- Witness for C1 at the concrete timestamp `"T"`. -/
theorem C1_duplicate_mint_batch_witness :
    (monitor_iteration "T" [] (.list [.dict [("mint", PyVal.str "A")],
        .dict [("mint", PyVal.str "B")], .dict [("mint", PyVal.str "A")]])).sent
      = [format_token_message (.dict [("mint", PyVal.str "A")]) "T",
         format_token_message (.dict [("mint", PyVal.str "B")]) "T"]
    ∧ (monitor_iteration "T" [] (.list [.dict [("mint", PyVal.str "A")],
        .dict [("mint", PyVal.str "B")], .dict [("mint", PyVal.str "A")]])).sent.length = 2
    ∧ (monitor_iteration "T"
        (monitor_iteration "T" [] (.list [.dict [("mint", PyVal.str "A")],
          .dict [("mint", PyVal.str "B")], .dict [("mint", PyVal.str "A")]])).seen
        (.list [.dict [("mint", PyVal.str "A")],
          .dict [("mint", PyVal.str "B")], .dict [("mint", PyVal.str "A")]])).sent = [] :=
  C1_duplicate_mint_batch "T"

/-- Claim C2 counterexample: on status 200 with body `{"coins": 5}` —
an object that does not hold a list under `"coins"`, so by the claim the
result should be the empty list — `get_new_tokens` returns the number `5`
itself (`data.get('coins', [])` returns whatever is stored), not the empty
list. -/
theorem C2_coins_nonlist_counterexample :
    get_new_tokens (.response 200 (.ok (.dict [("coins", PyVal.num ⟨5, 0⟩)])))
        = .ok (.num ⟨5, 0⟩)
    ∧ PyVal.num ⟨5, 0⟩ ≠ PyVal.list [] :=
  ⟨rfl, fun h => PyVal.noConfusion h⟩

/-- Claim C2 (amended): for every HTTP 200 body, `get_new_tokens` returns
the body itself when it is a bare list; when the body is an object it
returns whatever value is stored under `"coins"` — not necessarily a
list — or the empty list when that key is absent; for any other body shape
(where `.get` raises) it returns the empty list. -/
theorem C2_status200_body_shapes (body : PyVal) :
    get_new_tokens (.response 200 (.ok body)) = .ok (
      match body with
      | .list xs => .list xs
      | .dict kvs => lookupD kvs "coins" (.list [])
      | _ => .list []) := by
  cases body <;> rfl

/-- Witness for C2's amended theorem at a concrete object body. -/
theorem C2_status200_body_shapes_witness :
    get_new_tokens (.response 200 (.ok (.dict [("coins",
        PyVal.list [.str "t"])]))) = .ok (
      match PyVal.dict [("coins", PyVal.list [.str "t"])] with
      | .list xs => .list xs
      | .dict kvs => lookupD kvs "coins" (.list [])
      | _ => .list []) :=
  C2_status200_body_shapes (.dict [("coins", PyVal.list [.str "t"])])

/-- Claim C3: every failure outcome of the feed request — non-200 status,
network error, or malformed JSON — makes `get_new_tokens` return the empty
list, and (second conjunct) no exception ever escapes it: for every
outcome whatsoever the result is an `.ok` value, never `.error`. -/
theorem C3_fetch_failure_empty :
    (∀ o : FetchOutcome, isFetchFailure o = true → get_new_tokens o = .ok (.list []))
    ∧ (∀ o : FetchOutcome, ∃ v, get_new_tokens o = .ok v) := by
  constructor
  · intro o ho
    cases o with
    | netErr m => rfl
    | response st js =>
      cases js with
      | error e =>
        unfold get_new_tokens getNewTokensTry
        cases hst : (st == 200) <;> simp [hst, except_bind_error, except_pure]
      | ok v =>
        have hst : (st == 200) = false := by
          simpa [isFetchFailure, bne] using ho
        unfold get_new_tokens getNewTokensTry
        simp [hst, except_pure]
  · intro o
    cases hres : get_new_tokens o with
    | ok v => exact ⟨v, rfl⟩
    | error e =>
      exfalso
      unfold get_new_tokens at hres
      cases h : getNewTokensTry o <;> rw [h] at hres <;> exact Except.noConfusion hres

/-- Witness for C3 at a concrete non-200 response. -/
theorem C3_fetch_failure_empty_witness :
    get_new_tokens (.response 404 (.ok (.list [.str "x"]))) = .ok (.list []) :=
  C3_fetch_failure_empty.1 (.response 404 (.ok (.list [.str "x"]))) rfl

/-- Claim C4: for every token record whose `usd_market_cap` and `price_usd`
fields hold numbers (the spec's data model makes both numeric; non-numeric
values take the failure path of C5/C8) and whose description renders, the
formatted message carries in its market-cap slot `"N/A"` when the value is
zero (falsy) and a thousands-grouped two-decimal currency string when it is
truthy, and in its price slot `"N/A"` when the price is zero and an
eight-decimal currency string when it is truthy. -/
theorem C4_numeric_field_rendering (kvs : List (String × PyVal)) (now : String)
    (xm xp : Dec) (ds : String)
    (hmc : lookupD kvs "usd_market_cap" (.num ⟨0, 0⟩) = .num xm)
    (hp : lookupD kvs "price_usd" (.num ⟨0, 0⟩) = .num xp)
    (hds : description_segment
      (lookupD kvs "description" (.str "No description available")) = .ok ds) :
    ∃ mcf pf,
      format_token_message (.dict kvs) now = renderMessage
        (pyStr (lookupD kvs "name" (.str "Unknown")))
        (pyStr (lookupD kvs "symbol" (.str "N/A")))
        (pyStr (lookupD kvs "mint" (.str "N/A")))
        (pyStr (lookupD kvs "creator" (.str "Unknown")))
        pf mcf ds
        (lookupD kvs "website" (.str "")) (lookupD kvs "twitter" (.str ""))
        (lookupD kvs "telegram" (.str "")) now
      ∧ (xm.isZero = true → mcf = "N/A")
      ∧ (xm.isZero = false → isCurrency true 2 mcf = true)
      ∧ (xp.isZero = true → pf = "N/A")
      ∧ (xp.isZero = false → isCurrency false 8 pf = true) := by
  refine ⟨if xm.isZero then "N/A" else "$" ++ pyFixed true 2 xm,
          if xp.isZero then "N/A" else "$" ++ pyFixed false 8 xp, ?_, ?_, ?_, ?_, ?_⟩
  · apply format_token_message_ok
    · rw [hmc]
      unfold market_cap_formatted_of
      cases hz : xm.isZero <;>
        simp [truthy, hz, pyFormatCommaFixed2, except_bind_ok, except_pure]
    · rw [hp]
      unfold price_formatted_of
      cases hz : xp.isZero <;>
        simp [truthy, hz, pyFloat, except_bind_ok, except_pure]
    · exact hds
  · intro h; simp [h]
  · intro h
    simp only [h, Bool.false_eq_true, if_false]
    exact isCurrency_pyFixed true 2 (by decide) xm
  · intro h; simp [h]
  · intro h
    simp only [h, Bool.false_eq_true, if_false]
    exact isCurrency_pyFixed false 8 (by decide) xp

/-- Witness for C4 at `usd_market_cap = 1234567.5` and `price_usd = 1.5`. -/
theorem C4_numeric_field_rendering_witness :
    ∃ mcf pf,
      format_token_message (.dict [("usd_market_cap", PyVal.num ⟨12345675, 1⟩),
        ("price_usd", PyVal.num ⟨15, 1⟩)]) "T" = renderMessage
        (pyStr (lookupD [("usd_market_cap", PyVal.num ⟨12345675, 1⟩),
          ("price_usd", PyVal.num ⟨15, 1⟩)] "name" (.str "Unknown")))
        (pyStr (lookupD [("usd_market_cap", PyVal.num ⟨12345675, 1⟩),
          ("price_usd", PyVal.num ⟨15, 1⟩)] "symbol" (.str "N/A")))
        (pyStr (lookupD [("usd_market_cap", PyVal.num ⟨12345675, 1⟩),
          ("price_usd", PyVal.num ⟨15, 1⟩)] "mint" (.str "N/A")))
        (pyStr (lookupD [("usd_market_cap", PyVal.num ⟨12345675, 1⟩),
          ("price_usd", PyVal.num ⟨15, 1⟩)] "creator" (.str "Unknown")))
        pf mcf "No description available"
        (lookupD [("usd_market_cap", PyVal.num ⟨12345675, 1⟩),
          ("price_usd", PyVal.num ⟨15, 1⟩)] "website" (.str ""))
        (lookupD [("usd_market_cap", PyVal.num ⟨12345675, 1⟩),
          ("price_usd", PyVal.num ⟨15, 1⟩)] "twitter" (.str ""))
        (lookupD [("usd_market_cap", PyVal.num ⟨12345675, 1⟩),
          ("price_usd", PyVal.num ⟨15, 1⟩)] "telegram" (.str "")) "T"
      ∧ ((Dec.mk 12345675 1).isZero = true → mcf = "N/A")
      ∧ ((Dec.mk 12345675 1).isZero = false → isCurrency true 2 mcf = true)
      ∧ ((Dec.mk 15 1).isZero = true → pf = "N/A")
      ∧ ((Dec.mk 15 1).isZero = false → isCurrency false 8 pf = true) :=
  C4_numeric_field_rendering [("usd_market_cap", PyVal.num ⟨12345675, 1⟩),
    ("price_usd", PyVal.num ⟨15, 1⟩)] "T" ⟨12345675, 1⟩ ⟨15, 1⟩
    "No description available" rfl rfl rfl

/-- Claim C5: a truthy `price_usd` string that cannot be converted to a
number is not coerced to zero: `format_token_message` returns the fallback
string built from the conversion exception's description, and the monitor
still sends exactly that fallback string as the notification for the
record. -/
theorem C5_price_failure_still_sent (kvs : List (String × PyVal))
    (seen : List PyVal) (now s m mcs : String)
    (hp : lookupD kvs "price_usd" (.num ⟨0, 0⟩) = .str s)
    (hs : s ≠ "")
    (hconv : parseFloatDec s = Option.none)
    (hmc : market_cap_formatted_of (lookupD kvs "usd_market_cap" (.num ⟨0, 0⟩))
      = .ok mcs)
    (hmint : lookupD kvs "mint" (.str "") = .str m)
    (hm : m ≠ "")
    (hseen : pyMem (.str m) seen = false) :
    format_token_message (.dict kvs) now
      = "Error formatting token data: "
        ++ ("ValueError: could not convert string to float: " ++ s)
    ∧ (monitor_process_tokens now seen [.dict kvs]).2.1
      = ["Error formatting token data: "
        ++ ("ValueError: could not convert string to float: " ++ s)] := by
  have hfmt : format_token_message (.dict kvs) now
      = "Error formatting token data: "
        ++ ("ValueError: could not convert string to float: " ++ s) := by
    apply format_token_message_price_error kvs now _ mcs hmc
    rw [hp]
    unfold price_formatted_of
    simp [truthy, hs, pyFloat, hconv, except_bind_error]
  refine ⟨hfmt, ?_⟩
  unfold monitor_process_tokens
  simp only [pyGet, hmint, truthy]
  have hm2 : (decide (m ≠ "")) = true := by simp [hm]
  simp only [hm2, pyHashable, hseen, if_true, Bool.false_eq_true, if_false]
  unfold monitor_process_tokens
  rw [hfmt]

/-- Witness for C5 at `price_usd = "abc"`. -/
theorem C5_price_failure_still_sent_witness :
    format_token_message (.dict [("price_usd", PyVal.str "abc"),
        ("mint", PyVal.str "M")]) "T"
      = "Error formatting token data: "
        ++ ("ValueError: could not convert string to float: " ++ "abc")
    ∧ (monitor_process_tokens "T" [] [.dict [("price_usd", PyVal.str "abc"),
        ("mint", PyVal.str "M")]]).2.1
      = ["Error formatting token data: "
        ++ ("ValueError: could not convert string to float: " ++ "abc")] :=
  C5_price_failure_still_sent [("price_usd", PyVal.str "abc"), ("mint", PyVal.str "M")]
    [] "T" "abc" "M" "N/A" rfl (by decide) rfl rfl rfl (by decide) rfl

/-- Claim C6: for every string description, the description segment of the
formatted output is exactly the first 200 characters followed by the
ellipsis marker `...` when the description is longer than 200 characters,
and the whole description with no marker when its length is at most 200;
the full message embeds that segment in the description slot. -/
theorem C6_description_truncation (kvs : List (String × PyVal)) (now d : String)
    (mcs pfs : String)
    (hd : lookupD kvs "description" (.str "No description available") = .str d)
    (hmc : market_cap_formatted_of (lookupD kvs "usd_market_cap" (.num ⟨0, 0⟩))
      = .ok mcs)
    (hpf : price_formatted_of (lookupD kvs "price_usd" (.num ⟨0, 0⟩)) = .ok pfs) :
    ∃ seg, description_segment (.str d) = .ok seg
      ∧ (200 < d.length → seg = String.mk (d.data.take 200) ++ "...")
      ∧ (d.length ≤ 200 → seg = d)
      ∧ format_token_message (.dict kvs) now = renderMessage
          (pyStr (lookupD kvs "name" (.str "Unknown")))
          (pyStr (lookupD kvs "symbol" (.str "N/A")))
          (pyStr (lookupD kvs "mint" (.str "N/A")))
          (pyStr (lookupD kvs "creator" (.str "Unknown")))
          pfs mcs seg
          (lookupD kvs "website" (.str "")) (lookupD kvs "twitter" (.str ""))
          (lookupD kvs "telegram" (.str "")) now := by
  refine ⟨String.mk (d.data.take 200) ++ (if 200 < d.length then "..." else ""),
    rfl, ?_, ?_, ?_⟩
  · intro h
    rw [if_pos h]
  · intro h
    have hnl : ¬ (200 < d.length) := not_lt.mpr h
    rw [if_neg hnl, List.take_of_length_le (h : d.data.length ≤ 200), strMk_data]
    simp
  · apply format_token_message_ok
    · exact hmc
    · exact hpf
    · rw [hd]
      rfl

/-- Witness for C6 at a description of length 250. -/
theorem C6_description_truncation_witness :
    ∃ seg, description_segment (.str (String.mk (List.replicate 250 'a'))) = .ok seg
      ∧ (200 < (String.mk (List.replicate 250 'a')).length →
          seg = String.mk ((String.mk (List.replicate 250 'a')).data.take 200) ++ "...")
      ∧ ((String.mk (List.replicate 250 'a')).length ≤ 200 →
          seg = String.mk (List.replicate 250 'a'))
      ∧ format_token_message
          (.dict [("description", PyVal.str (String.mk (List.replicate 250 'a')))]) "T"
        = renderMessage
          (pyStr (lookupD [("description",
            PyVal.str (String.mk (List.replicate 250 'a')))] "name" (.str "Unknown")))
          (pyStr (lookupD [("description",
            PyVal.str (String.mk (List.replicate 250 'a')))] "symbol" (.str "N/A")))
          (pyStr (lookupD [("description",
            PyVal.str (String.mk (List.replicate 250 'a')))] "mint" (.str "N/A")))
          (pyStr (lookupD [("description",
            PyVal.str (String.mk (List.replicate 250 'a')))] "creator" (.str "Unknown")))
          "N/A" "N/A" seg
          (lookupD [("description",
            PyVal.str (String.mk (List.replicate 250 'a')))] "website" (.str ""))
          (lookupD [("description",
            PyVal.str (String.mk (List.replicate 250 'a')))] "twitter" (.str ""))
          (lookupD [("description",
            PyVal.str (String.mk (List.replicate 250 'a')))] "telegram" (.str "")) "T" :=
  C6_description_truncation
    [("description", PyVal.str (String.mk (List.replicate 250 'a')))] "T"
    (String.mk (List.replicate 250 'a')) "N/A" "N/A" rfl rfl rfl

/-- Claim C7: a record whose identifier is empty or missing (so that
`token.get('mint', '')` yields the empty string) is skipped silently —
processing it sends nothing and leaves the seen set unchanged, continuing
with the remaining records — and the empty string is never an element of
the seen set in any reachable monitor state. -/
theorem C7_empty_mint_never_seen :
    (∀ (now : String) (seen : List PyVal) (kvs : List (String × PyVal))
        (rest : List PyVal),
        lookupD kvs "mint" (.str "") = .str "" →
        monitor_process_tokens now seen (.dict kvs :: rest)
          = monitor_process_tokens now seen rest)
    ∧ (∀ seen, ReachableSeen seen → PyVal.str "" ∉ seen) := by
  constructor
  · intro now seen kvs rest hmint
    conv_lhs => unfold monitor_process_tokens
    simp [pyGet, hmint, truthy]
  · exact reachable_no_empty_str

/-- Witness for C7: a record without a `mint` key is skipped, and the
initial (empty) seen set does not hold the empty string. -/
theorem C7_empty_mint_never_seen_witness :
    monitor_process_tokens "T" [PyVal.str "X"] [.dict [("name", PyVal.str "t")]]
      = monitor_process_tokens "T" [PyVal.str "X"] []
    ∧ PyVal.str "" ∉ ([] : List PyVal) :=
  ⟨C7_empty_mint_never_seen.1 "T" [PyVal.str "X"] [("name", PyVal.str "t")] [] rfl,
   C7_empty_mint_never_seen.2 [] ReachableSeen.init⟩

/-- Claim C8: a truthy `usd_market_cap` value that is not a number (and not
a bool, which Python formats as the integer it is) takes the same
formatting-failure path as a non-numeric price: `format_token_message`
returns the fallback error-message string built from the format exception —
not a formatted market cap and not `"N/A"`. -/
theorem C8_nonnumeric_market_cap (kvs : List (String × PyVal)) (now : String)
    (v : PyVal)
    (hmc : lookupD kvs "usd_market_cap" (.num ⟨0, 0⟩) = v)
    (ht : truthy v = true)
    (hnn : ∀ x : Dec, v ≠ .num x)
    (hnb : ∀ b : Bool, v ≠ .bool b) :
    ∃ e, pyFormatCommaFixed2 v = .error e
      ∧ format_token_message (.dict kvs) now
        = "Error formatting token data: " ++ e := by
  have herr : ∃ e, pyFormatCommaFixed2 v = .error e := by
    cases v with
    | num x => exact absurd rfl (hnn x)
    | bool b => exact absurd rfl (hnb b)
    | none => exact absurd ht (by decide)
    | str s => exact ⟨_, rfl⟩
    | list xs => exact ⟨_, rfl⟩
    | dict kvs2 => exact ⟨_, rfl⟩
  obtain ⟨e, he⟩ := herr
  refine ⟨e, he, ?_⟩
  apply format_token_message_mc_error
  rw [hmc]
  unfold market_cap_formatted_of
  simp [ht, he, except_bind_error]

/-- Witness for C8 at `usd_market_cap = "x"` (a truthy non-numeric
string). -/
theorem C8_nonnumeric_market_cap_witness :
    ∃ e, pyFormatCommaFixed2 (.str "x") = .error e
      ∧ format_token_message (.dict [("usd_market_cap", PyVal.str "x")]) "T"
        = "Error formatting token data: " ++ e :=
  C8_nonnumeric_market_cap [("usd_market_cap", PyVal.str "x")] "T" (.str "x")
    rfl (by decide) (fun x h => PyVal.noConfusion h) (fun b h => PyVal.noConfusion h)

theorem str_app_congr (a b s : String) (h : a = b) : a ++ s = b ++ s := by
  rw [h]

set_option maxRecDepth 8192 in
/-- Claim C9: the documented placeholder defaults (`"Unknown"`, `"N/A"`,
`"No description available"`) are substituted only when the corresponding
key is absent from the record.  First part: a record carrying all ten
consumed keys with empty-string values renders the empty strings (the
message contains no placeholder text).  Second part: a record from which
all ten keys are absent renders every placeholder default. -/
theorem C9_placeholders_only_when_absent :
    (∀ (kvs : List (String × PyVal)) (now : String),
        lookupD kvs "name" (.str "Unknown") = .str "" →
        lookupD kvs "symbol" (.str "N/A") = .str "" →
        lookupD kvs "mint" (.str "N/A") = .str "" →
        lookupD kvs "description" (.str "No description available") = .str "" →
        lookupD kvs "usd_market_cap" (.num ⟨0, 0⟩) = .str "" →
        lookupD kvs "price_usd" (.num ⟨0, 0⟩) = .str "" →
        lookupD kvs "creator" (.str "Unknown") = .str "" →
        lookupD kvs "website" (.str "") = .str "" →
        lookupD kvs "twitter" (.str "") = .str "" →
        lookupD kvs "telegram" (.str "") = .str "" →
        format_token_message (.dict kvs) now
          = "\n🚀 <b>NEW TOKEN LISTED ON PUMP.FUN</b>\n\n💎 <b>Name:</b> \n🎯 <b>Symbol:</b> $\n🔑 <b>Contract:</b> <code></code>\n👤 <b>Creator:</b> <code></code>\n\n💰 <b>Price:</b> N/A\n📊 <b>Market Cap:</b> N/A\n\n📝 <b>Description:</b>\n\n\n🔗 <b>Links:</b>\n• Pump.fun: https://pump.fun/\n• DEXScreener: https://dexscreener.com/solana/\n• Birdeye: https://birdeye.so/token/\n\n⏰ <b>Detected at:</b> "
            ++ now)
    ∧ (∀ (kvs : List (String × PyVal)) (now : String),
        kvs.find? (fun kv => kv.1 == "name") = Option.none →
        kvs.find? (fun kv => kv.1 == "symbol") = Option.none →
        kvs.find? (fun kv => kv.1 == "mint") = Option.none →
        kvs.find? (fun kv => kv.1 == "description") = Option.none →
        kvs.find? (fun kv => kv.1 == "usd_market_cap") = Option.none →
        kvs.find? (fun kv => kv.1 == "price_usd") = Option.none →
        kvs.find? (fun kv => kv.1 == "creator") = Option.none →
        kvs.find? (fun kv => kv.1 == "website") = Option.none →
        kvs.find? (fun kv => kv.1 == "twitter") = Option.none →
        kvs.find? (fun kv => kv.1 == "telegram") = Option.none →
        format_token_message (.dict kvs) now
          = "\n🚀 <b>NEW TOKEN LISTED ON PUMP.FUN</b>\n\n💎 <b>Name:</b> Unknown\n🎯 <b>Symbol:</b> $N/A\n🔑 <b>Contract:</b> <code>N/A</code>\n👤 <b>Creator:</b> <code>Unknown</code>\n\n💰 <b>Price:</b> N/A\n📊 <b>Market Cap:</b> N/A\n\n📝 <b>Description:</b>\nNo description available\n\n🔗 <b>Links:</b>\n• Pump.fun: https://pump.fun/N/A\n• DEXScreener: https://dexscreener.com/solana/N/A\n• Birdeye: https://birdeye.so/token/N/A\n\n⏰ <b>Detected at:</b> "
            ++ now) := by
  constructor
  · intro kvs now h1 h2 h3 h4 h5 h6 h7 h8 h9 h10
    have hmc : market_cap_formatted_of (lookupD kvs "usd_market_cap" (.num ⟨0, 0⟩))
        = .ok "N/A" := by rw [h5]; rfl
    have hpf : price_formatted_of (lookupD kvs "price_usd" (.num ⟨0, 0⟩))
        = .ok "N/A" := by rw [h6]; rfl
    have hds : description_segment
        (lookupD kvs "description" (.str "No description available"))
        = .ok "" := by rw [h4]; rfl
    rw [format_token_message_ok kvs now "N/A" "N/A" "" hmc hpf hds,
      h1, h2, h3, h7, h8, h9, h10]
    unfold renderMessage
    exact str_app_congr _ _ now (by decide)
  · intro kvs now h1 h2 h3 h4 h5 h6 h7 h8 h9 h10
    have hmc : market_cap_formatted_of (lookupD kvs "usd_market_cap" (.num ⟨0, 0⟩))
        = .ok "N/A" := by rw [lookupD_of_find_none kvs _ _ h5]; rfl
    have hpf : price_formatted_of (lookupD kvs "price_usd" (.num ⟨0, 0⟩))
        = .ok "N/A" := by rw [lookupD_of_find_none kvs _ _ h6]; rfl
    have hds : description_segment
        (lookupD kvs "description" (.str "No description available"))
        = .ok "No description available" := by
      rw [lookupD_of_find_none kvs _ _ h4]; rfl
    rw [format_token_message_ok kvs now "N/A" "N/A" "No description available"
        hmc hpf hds,
      lookupD_of_find_none kvs _ _ h1, lookupD_of_find_none kvs _ _ h2,
      lookupD_of_find_none kvs _ _ h3, lookupD_of_find_none kvs _ _ h7,
      lookupD_of_find_none kvs _ _ h8, lookupD_of_find_none kvs _ _ h9,
      lookupD_of_find_none kvs _ _ h10]
    unfold renderMessage
    exact str_app_congr _ _ now (by decide)

/-- Witness for C9: both parts at concrete records. -/
theorem C9_placeholders_only_when_absent_witness :
    format_token_message (.dict [("name", PyVal.str ""), ("symbol", PyVal.str ""),
        ("mint", PyVal.str ""), ("description", PyVal.str ""),
        ("usd_market_cap", PyVal.str ""), ("price_usd", PyVal.str ""),
        ("creator", PyVal.str ""), ("website", PyVal.str ""),
        ("twitter", PyVal.str ""), ("telegram", PyVal.str "")]) "T"
      = "\n🚀 <b>NEW TOKEN LISTED ON PUMP.FUN</b>\n\n💎 <b>Name:</b> \n🎯 <b>Symbol:</b> $\n🔑 <b>Contract:</b> <code></code>\n👤 <b>Creator:</b> <code></code>\n\n💰 <b>Price:</b> N/A\n📊 <b>Market Cap:</b> N/A\n\n📝 <b>Description:</b>\n\n\n🔗 <b>Links:</b>\n• Pump.fun: https://pump.fun/\n• DEXScreener: https://dexscreener.com/solana/\n• Birdeye: https://birdeye.so/token/\n\n⏰ <b>Detected at:</b> "
        ++ "T"
    ∧ format_token_message (.dict []) "T"
      = "\n🚀 <b>NEW TOKEN LISTED ON PUMP.FUN</b>\n\n💎 <b>Name:</b> Unknown\n🎯 <b>Symbol:</b> $N/A\n🔑 <b>Contract:</b> <code>N/A</code>\n👤 <b>Creator:</b> <code>Unknown</code>\n\n💰 <b>Price:</b> N/A\n📊 <b>Market Cap:</b> N/A\n\n📝 <b>Description:</b>\nNo description available\n\n🔗 <b>Links:</b>\n• Pump.fun: https://pump.fun/N/A\n• DEXScreener: https://dexscreener.com/solana/N/A\n• Birdeye: https://birdeye.so/token/N/A\n\n⏰ <b>Detected at:</b> "
        ++ "T" :=
  ⟨C9_placeholders_only_when_absent.1 [("name", PyVal.str ""),
      ("symbol", PyVal.str ""), ("mint", PyVal.str ""),
      ("description", PyVal.str ""), ("usd_market_cap", PyVal.str ""),
      ("price_usd", PyVal.str ""), ("creator", PyVal.str ""),
      ("website", PyVal.str ""), ("twitter", PyVal.str ""),
      ("telegram", PyVal.str "")] "T"
      rfl rfl rfl rfl rfl rfl rfl rfl rfl rfl,
   C9_placeholders_only_when_absent.2 [] "T"
      rfl rfl rfl rfl rfl rfl rfl rfl rfl rfl⟩

/-- Claim C10: when the fetched list contains a non-mapping element (whose
`token.get` raises), the earlier records having been processed normally
(dicts with hashable identifiers), the iteration stops at that element:
the result is exactly the prefix's seen set and messages (nothing after
the bad element is processed) plus the raised exception; the prefix alone
raises nothing; the orchestrator catches the exception and takes the
60-second backoff instead of the 30-second steady pause; and the loop
continues — the degraded iteration is an ordinary step to the next
reachable monitor state. -/
theorem C10_nonmapping_aborts_iteration (now : String) (seen : List PyVal)
    (pre post : List PyVal) (v : PyVal)
    (hpre : ∀ t ∈ pre, ∃ kvs, t = PyVal.dict kvs
      ∧ pyHashable (lookupD kvs "mint" (.str "")) = true)
    (hv : isDict v = false) :
    monitor_process_tokens now seen (pre ++ v :: post)
      = ((monitor_process_tokens now seen pre).1,
         (monitor_process_tokens now seen pre).2.1,
         some "AttributeError: object has no attribute get")
    ∧ (monitor_process_tokens now seen pre).2.2 = Option.none
    ∧ monitor_iteration now seen (.list (pre ++ v :: post))
      = ⟨(monitor_process_tokens now seen pre).1,
         (monitor_process_tokens now seen pre).2.1, 60⟩
    ∧ (ReachableSeen seen →
        ReachableSeen (monitor_iteration now seen (.list (pre ++ v :: post))).seen) := by
  have h1 := processTokens_append_error now v hv pre seen post hpre
  have h2 := processTokens_no_error now pre seen hpre
  refine ⟨h1, h2, ?_, fun hr => ReachableSeen.step seen now _ hr⟩
  have hne : truthy (.list (pre ++ v :: post)) = true := by
    simp [truthy]
  unfold monitor_iteration
  rw [hne]
  simp only [if_true, pyIter]
  rw [h1]

/-- Witness for C10: the batch `[{"mint": "A"}, 0, {"mint": "B"}]` — the
dict before the number is processed, the one after is not, and the
iteration ends in the 60-second backoff. -/
theorem C10_nonmapping_aborts_iteration_witness :
    monitor_process_tokens "T" [] ([.dict [("mint", PyVal.str "A")]]
        ++ PyVal.num ⟨0, 0⟩ :: [.dict [("mint", PyVal.str "B")]])
      = ((monitor_process_tokens "T" [] [.dict [("mint", PyVal.str "A")]]).1,
         (monitor_process_tokens "T" [] [.dict [("mint", PyVal.str "A")]]).2.1,
         some "AttributeError: object has no attribute get")
    ∧ (monitor_process_tokens "T" [] [.dict [("mint", PyVal.str "A")]]).2.2
      = Option.none
    ∧ monitor_iteration "T" [] (.list ([.dict [("mint", PyVal.str "A")]]
        ++ PyVal.num ⟨0, 0⟩ :: [.dict [("mint", PyVal.str "B")]]))
      = ⟨(monitor_process_tokens "T" [] [.dict [("mint", PyVal.str "A")]]).1,
         (monitor_process_tokens "T" [] [.dict [("mint", PyVal.str "A")]]).2.1, 60⟩
    ∧ (ReachableSeen [] →
        ReachableSeen (monitor_iteration "T" [] (.list ([.dict [("mint", PyVal.str "A")]]
          ++ PyVal.num ⟨0, 0⟩ :: [.dict [("mint", PyVal.str "B")]]))).seen) :=
  C10_nonmapping_aborts_iteration "T" [] [.dict [("mint", PyVal.str "A")]]
    [.dict [("mint", PyVal.str "B")]] (PyVal.num ⟨0, 0⟩)
    (by
      intro t ht
      simp only [List.mem_singleton] at ht
      subst ht
      exact ⟨[("mint", PyVal.str "A")], rfl, rfl⟩)
    rfl

end Pumpfunbot
